import Mathlib

/-!
Verification of the nlp-resume-extractor repository against its
natural-language specification.  The Python sources are shallowly embedded:
JSON values become an inductive type, Python exceptions become an error
type, the filesystem, the third-party Draft-7 validation engine, the LLM
providers and the pydantic record validator become oracle fields of a
`World` record, and each Python function of interest becomes a Lean
function over that world.  Third-party library internals (jsonschema,
datetime.strptime, the provider clients) are outside the repository and are
modelled as the oracles the code calls into.
-/

/-- A JSON value, as produced by Python json.loads: null, booleans, numbers
(integers suffice for every value the claims touch), strings, arrays and
objects (ordered key-value lists, mirroring Python dict insertion order). -/
inductive Json where
  | null : Json
  | bool : Bool → Json
  | num : Int → Json
  | str : String → Json
  | arr : List Json → Json
  | obj : List (String × Json) → Json

/-- Python exceptions that the embedded code can raise.  JSONDecodeError is
a subclass of ValueError in Python; the subclass relation is recovered by
`PyErr.isValueError` below. -/
inductive PyErr where
  | valueError : String → PyErr
  | jsonDecodeError : String → PyErr
  | fileNotFoundError : String → PyErr
  | schemaError : String → PyErr
  | validationError : String → PyErr
  | typeError : String → PyErr
  | keyError : String → PyErr
  | nameError : String → PyErr
  | ioError : String → PyErr
  | pydanticValidationError : String → PyErr
deriving DecidableEq, Repr

/-- Whether a raised exception would be caught by `except ValueError`:
true for ValueError itself and for its subclass json.JSONDecodeError. -/
def PyErr.isValueError : PyErr → Bool
  | .valueError _ => true
  | .jsonDecodeError _ => true
  | _ => false

/-- Whether the exception is a jsonschema SchemaError. -/
def PyErr.isSchemaError : PyErr → Bool
  | .schemaError _ => true
  | _ => false

/-- str(e): the message text carried by the exception (used when the code
writes diagnostic files). -/
def PyErr.msg : PyErr → String
  | .valueError m => m
  | .jsonDecodeError m => m
  | .fileNotFoundError m => m
  | .schemaError m => m
  | .validationError m => m
  | .typeError m => m
  | .keyError m => m
  | .nameError m => m
  | .ioError m => m
  | .pydanticValidationError m => m

/-- Python truthiness of a JSON value: None, False, 0, "", [] and the empty
dict are falsy, everything else is truthy. -/
def Json.truthy : Json → Bool
  | .null => false
  | .bool b => b
  | .num n => n != 0
  | .str s => s != ""
  | .arr xs => !xs.isEmpty
  | .obj kvs => !kvs.isEmpty

/-- isinstance(j, dict). -/
def Json.isObjB : Json → Bool
  | .obj _ => true
  | _ => false

/-- Key lookup in an object key-value list (Python d[k] / k in d). -/
def lookupKv (kvs : List (String × Json)) (k : String) : Option Json :=
  match kvs with
  | [] => none
  | (k2, v) :: rest => if k2 = k then some v else lookupKv rest k

/-- Key lookup on a Json value that is known to be an object. -/
def Json.lookup : Json → String → Option Json
  | .obj kvs, k => lookupKv kvs k
  | _, _ => none

/-- The local filesystem as the code observes it through json.load: a path
is either absent (open raises FileNotFoundError), present with content that
is not valid JSON (json.loads raises JSONDecodeError), or present with
content parsing to a JSON value. -/
def FS : Type := String → Option (Option Json)

/-- read_json_file, as defined identically (up to log calls and message
text) in src/src/json_schema.py lines 19-45 and
src/src/json_schema_factory.py lines 15-50: an undefined path raises
ValueError; FileNotFoundError and JSONDecodeError propagate (the factory
variant catches them only to log and re-raise the same exception); a parsed
value of None (JSON null) raises ValueError; a parsed value that is not a
dict raises ValueError; otherwise the parsed mapping is returned.  The
`is None` test is the only emptiness test: an empty dict passes it. -/
def read_json_file (fs : FS) (json_file : Option String) : Except PyErr Json :=
  match json_file with
  | none => .error (.valueError "Error reading undefined json file path")
  | some path =>
    match fs path with
    | none => .error (.fileNotFoundError path)
    | some none => .error (.jsonDecodeError path)
    | some (some j) =>
      match j with
      | .null => .error (.valueError ("Error empty json_file: " ++ path))
      | .obj kvs => .ok (.obj kvs)
      | _ => .error (.valueError ("Error: invalid json_file: " ++ path))

/-- C9: the claim states read_json_file raises ValueError exactly when the
path is undefined, the content is not valid JSON, or the parsed value is
empty or not a mapping.  The code only tests `json_object is None`, so a
file whose content is the empty mapping is returned, not rejected: here the
file e9.json parses to the empty dict and read_json_file returns it. -/
theorem C9_counterexample :
    (fun p => if p = "e9.json" then some (some (Json.obj [])) else none : FS) "e9.json"
      = some (some (Json.obj [])) ∧
    read_json_file (fun p => if p = "e9.json" then some (some (Json.obj [])) else none)
      (some "e9.json") = .ok (Json.obj []) := by
  exact ⟨rfl, rfl⟩

/-- C9 (amended): read_json_file raises a ValueError (JSONDecodeError
included, being its subclass) exactly when the path is undefined, or the
file exists but its content is not valid JSON, parses to null, or parses to
a non-mapping; a missing file raises FileNotFoundError instead; and any
parsed mapping - the empty mapping included - is returned unchanged. -/
theorem C9_read_json_file_behaviour (fs : FS) (p : Option String) :
    (p = none →
      read_json_file fs p = .error (.valueError "Error reading undefined json file path")) ∧
    (∀ path, p = some path → fs path = none →
      read_json_file fs p = .error (.fileNotFoundError path)) ∧
    (∀ path, p = some path → fs path = some none →
      ∃ e, read_json_file fs p = .error e ∧ e.isValueError = true) ∧
    (∀ path j, p = some path → fs path = some (some j) → j.isObjB = false →
      ∃ e, read_json_file fs p = .error e ∧ e.isValueError = true) ∧
    (∀ path kvs, p = some path → fs path = some (some (Json.obj kvs)) →
      read_json_file fs p = .ok (Json.obj kvs)) := by
  refine ⟨?_, ?_, ?_, ?_, ?_⟩
  · rintro rfl; rfl
  · rintro path rfl h; simp [read_json_file, h]
  · rintro path rfl h
    exact ⟨.jsonDecodeError path, by simp [read_json_file, h], rfl⟩
  · rintro path j rfl h hobj
    cases j with
    | null =>
      exact ⟨.valueError ("Error empty json_file: " ++ path), by simp [read_json_file, h], rfl⟩
    | bool b =>
      exact ⟨.valueError ("Error: invalid json_file: " ++ path), by simp [read_json_file, h], rfl⟩
    | num n =>
      exact ⟨.valueError ("Error: invalid json_file: " ++ path), by simp [read_json_file, h], rfl⟩
    | str s =>
      exact ⟨.valueError ("Error: invalid json_file: " ++ path), by simp [read_json_file, h], rfl⟩
    | arr xs =>
      exact ⟨.valueError ("Error: invalid json_file: " ++ path), by simp [read_json_file, h], rfl⟩
    | obj kvs => simp [Json.isObjB] at hobj
  · rintro path kvs rfl h; simp [read_json_file, h]

/-- C9 witness: the amended theorem applied at a concrete filesystem
holding one file whose content parses to the (empty) mapping. -/
theorem C9_witness :
    read_json_file (fun p => if p = "w9.json" then some (some (Json.obj [])) else none)
      (some "w9.json") = .ok (Json.obj []) :=
  (C9_read_json_file_behaviour
      (fun p => if p = "w9.json" then some (some (Json.obj [])) else none)
      (some "w9.json")).2.2.2.2 "w9.json" [] rfl (by simp)

/-- Outcome of a call into the third-party jsonschema engine
(jsonschema.validate or Draft7Validator.validate): success, a
ValidationError, a SchemaError, or any other exception. -/
inductive VOutcome where
  | ok : VOutcome
  | vErr : String → VOutcome
  | sErr : String → VOutcome
  | other : PyErr → VOutcome

/-- The message content of an LLM chat response, abstracted by what
json.loads does with it: it parses to a JSON value, or raises
JSONDecodeError with some message. -/
inductive LlmContent where
  | parses : Json → LlmContent
  | unparseable : String → LlmContent

/-- The chat-completion request built by groq_process_resume_text
(src/groq_app.py lines 39-63): the messages embed the resume text and the
schema text, temperature is 0 and max_tokens is the constant 8192. -/
structure GroqRequest where
  model : String
  resume_text : String
  schema_str : String
  temperature : Nat
  max_tokens : Nat

/-- The shape of the OpenAI chat response as openai_process_resume_text
(src/json_app.py lines 59-106) inspects it: missing response, missing or
non-list choices, empty choices, missing message content, content None,
content already a parsed mapping, or content a string.  For a string the
code first asks whether it contains the substring "error" and then whether
json.loads parses it, so those two observations parametrise the case. -/
inductive OpenAIResponse where
  | noResponse : OpenAIResponse
  | badChoices : OpenAIResponse
  | emptyChoices : OpenAIResponse
  | noMessageContent : OpenAIResponse
  | contentNone : OpenAIResponse
  | contentDict : List (String × Json) → OpenAIResponse
  | contentStr : Bool → Option Json → OpenAIResponse

/-- Everything outside the embedded Python code itself: environment
variables, the filesystem (reads via `FS`, write success per path), the
document loader, the Draft-7 engine (meta-schema check and
instance-validation outcomes), the two LLM providers and the pydantic
PydanticResume constructor (src/src/pydantic_resume.py), abstracted as the
validation outcome it produces on a candidate mapping. -/
structure World where
  env : String → Option String
  fs : FS
  writeOk : String → Bool
  loadDocx : String → Except PyErr String
  checkSchemaErr : Json → Option String
  engineValidate : Json → Json → VOutcome
  groqSend : GroqRequest → Except PyErr LlmContent
  openaiResp : String → Json → OpenAIResponse
  pydanticValidate : Json → Option String

/-- read_json_schema_file of src/src/json_schema_factory.py lines 53-75:
an undefined path raises ValueError, then the file is read with
read_json_file; the subsequent None / non-dict re-checks can never fire
because read_json_file already rejects both. -/
def factory_read_json_schema_file (fs : FS) (p : Option String) : Except PyErr Json :=
  match p with
  | none => .error (.valueError "Error undefined json schema file")
  | some path => read_json_file fs (some path)

/-- check_schema_validity of src/src/json_schema_factory.py lines 314-329:
Draft7Validator.check_schema on the schema; returns True on success and
re-raises the SchemaError (after printing it) on failure. -/
def check_schema_validity (w : World) (schema : Json) : Except PyErr Bool :=
  match w.checkSchemaErr schema with
  | none => .ok true
  | some m => .error (.schemaError m)

/-- Python call-arity semantics: calling a function whose signature
requires more positional arguments than were supplied raises TypeError at
the call site, before the body runs. -/
def pyArity (fname : String) (required given : Nat) : Except PyErr Unit :=
  if given < required then
    .error (.typeError (fname ++ " missing required positional argument"))
  else .ok ()

/-- The factory object state: self.validated_json_schema and
self.validator (the compiled Draft7Validator, represented by the schema it
is bound to), both None until assigned. -/
structure JsonSchemaFactory where
  validated_json_schema : Option Json
  validator : Option Json

/-- JsonSchemaFactory.__init__ (src/src/json_schema_factory.py lines
169-195): read the schema file, reject if falsy; read the legitimate data
object, reject if falsy; run check_schema_validity; then call
self.check_structural_integrity(candidate_json_schema) - the method
signature (line 300) requires a second name_types argument, so this call
raises TypeError; were the arity correct, the body's first statement
references count_schema_name_type_check_failures without self, a
NameError; everything after is unreachable, so no factory object is ever
produced. -/
def JsonSchemaFactory.init (w : World) (json_schema_path legitimate_data_object_path : Option String) :
    Except PyErr JsonSchemaFactory :=
  match factory_read_json_schema_file w.fs json_schema_path with
  | .error e => .error e
  | .ok candidate =>
    if candidate.truthy then
      match read_json_file w.fs legitimate_data_object_path with
      | .error e => .error e
      | .ok lego =>
        if lego.truthy then
          match check_schema_validity w candidate with
          | .error e => .error e
          | .ok _ =>
            match pyArity "JsonSchemaFactory.check_structural_integrity" 2 1 with
            | .error e => .error e
            | .ok _ =>
              .error (.nameError "name count_schema_name_type_check_failures is not defined")
        else .error (.valueError "Error: Invalid or empty legitimateDataObject")
    else .error (.valueError "Invalid or empty json schema")

/-- get_validated_json_schema (src/src/json_schema_factory.py lines
198-208): ValueError while the validated schema is unset, otherwise the
frozen schema. -/
def JsonSchemaFactory.get_validated_json_schema (st : JsonSchemaFactory) : Except PyErr Json :=
  match st.validated_json_schema with
  | none => .error (.valueError "Error: validated_json_schema is Undefined")
  | some s => .ok s

/-- validate_instance (src/src/json_schema_factory.py lines 211-232): runs
jsonschema.validate(instance=instance, schema=schema) on its own two
arguments - self is never consulted - returning True on success and False
on ValidationError (logged) or SchemaError (printed); any other exception
propagates. -/
def JsonSchemaFactory.validate_instance (w : World) (st : JsonSchemaFactory)
    (inst schema : Json) : Except PyErr Bool :=
  match w.engineValidate schema inst with
  | .ok => .ok true
  | .vErr _ => .ok false
  | .sErr _ => .ok false
  | .other e => .error e

/-- validate_data_object method (src/src/json_schema_factory.py lines
235-256): validates against self.validated_json_schema; while that is
still None, jsonschema.validate raises SchemaError (None is not a valid
schema), which the method catches and converts to False. -/
def JsonSchemaFactory.validate_data_object_method (w : World) (st : JsonSchemaFactory)
    (data_object : Json) : Except PyErr Bool :=
  match st.validated_json_schema with
  | none => .ok false
  | some s =>
    match w.engineValidate s data_object with
    | .ok => .ok true
    | .vErr _ => .ok false
    | .sErr _ => .ok false
    | .other e => .error e

/-- Python call semantics for a method requiring exactly two positional
arguments: the body runs only when both are supplied, otherwise TypeError. -/
def pyCallMethod2 (f : Json → Json → Except PyErr Bool) (fname : String)
    (args : List Json) : Except PyErr Bool :=
  match args with
  | [a, b] => f a b
  | _ => .error (.typeError (fname ++ " called with wrong number of positional arguments"))

/-- The call factory.validate_instance(openai_extracted_object) at
src/json_app.py line 149: a single positional argument for a method whose
signature requires instance and schema. -/
def json_app_validate_instance_call (w : World) (st : JsonSchemaFactory)
    (inst : Json) : Except PyErr Bool :=
  pyCallMethod2 (fun a b => JsonSchemaFactory.validate_instance w st a b)
    "JsonSchemaFactory.validate_instance" [inst]

/-- C1: with a readable Draft-7-valid schema mapping and a conforming
known-good instance - the exact situation in which the claim says
construction succeeds - JsonSchemaFactory.__init__ always raises TypeError
at self.check_structural_integrity(candidate_json_schema), because that
method requires a name_types argument the call never passes; construction
therefore never succeeds and no validator is ever compiled. -/
theorem C1_factory_construction_always_raises
    (w : World) (sp dp : Option String) (s d : Json)
    (h1 : factory_read_json_schema_file w.fs sp = .ok s)
    (h2 : s.truthy = true)
    (h3 : read_json_file w.fs dp = .ok d)
    (h4 : d.truthy = true)
    (h5 : w.checkSchemaErr s = none)
    (h6 : w.engineValidate s d = .ok) :
    JsonSchemaFactory.init w sp dp =
      .error (.typeError
        "JsonSchemaFactory.check_structural_integrity missing required positional argument") := by
  simp [JsonSchemaFactory.init, h1, h2, h3, h4, check_schema_validity, h5, pyArity]

/-- A schema file parsing to a Draft-7-valid mapping. -/
def schemaJ1 : Json := .obj [("type", .str "object")]

/-- A known-good data object conforming to schemaJ1. -/
def dataJ1 : Json := .obj [("firstName", .str "John")]

/-- A world holding schema.json and data.json, whose Draft-7 engine
accepts the schema and the instance. -/
def w1 : World where
  env := fun _ => none
  fs := fun p =>
    if p = "schema.json" then some (some schemaJ1)
    else if p = "data.json" then some (some dataJ1) else none
  writeOk := fun _ => true
  loadDocx := fun _ => .ok ""
  checkSchemaErr := fun _ => none
  engineValidate := fun _ _ => .ok
  groqSend := fun _ => .ok (.parses .null)
  openaiResp := fun _ _ => .noResponse
  pydanticValidate := fun _ => none

/-- C1 witness: the theorem applied to the concrete world w1. -/
theorem C1_witness :
    JsonSchemaFactory.init w1 (some "schema.json") (some "data.json") =
      .error (.typeError
        "JsonSchemaFactory.check_structural_integrity missing required positional argument") :=
  C1_factory_construction_always_raises w1 (some "schema.json") (some "data.json")
    schemaJ1 dataJ1 rfl rfl rfl rfl rfl rfl

/-- C4: the single-argument invocation of validate_instance made by
src/json_app.py line 149 always raises TypeError, because the method
signature requires both an instance and a schema; and even the
two-argument method never consults the factory state (the frozen schema
and compiled validator are ignored - it validates against its own schema
argument). -/
theorem C4_validate_instance_call_raises_TypeError :
    (∀ (w : World) (st : JsonSchemaFactory) (inst : Json),
      json_app_validate_instance_call w st inst =
        .error (.typeError
          "JsonSchemaFactory.validate_instance called with wrong number of positional arguments")) ∧
    (∀ (w : World) (st st2 : JsonSchemaFactory) (inst schema : Json),
      JsonSchemaFactory.validate_instance w st inst schema =
        JsonSchemaFactory.validate_instance w st2 inst schema) :=
  ⟨fun _ _ _ => rfl, fun _ _ _ _ _ => rfl⟩

/-- C7 (amended): provided the known-good-instance file also reads as a
non-empty mapping, constructing the factory from a readable schema file
whose mapping fails Draft-7 meta-validation raises SchemaError; and in
every case whatsoever the construction never yields a factory object, so
no usable compiled validator can ever be obtained from it. -/
theorem C7_meta_invalid_schema_raises_SchemaError :
    (∀ (w : World) (sp dp : Option String) (s d : Json) (m : String),
      factory_read_json_schema_file w.fs sp = .ok s → s.truthy = true →
      read_json_file w.fs dp = .ok d → d.truthy = true →
      w.checkSchemaErr s = some m →
      JsonSchemaFactory.init w sp dp = .error (.schemaError m)) ∧
    (∀ (w : World) (sp dp : Option String) (f : JsonSchemaFactory),
      JsonSchemaFactory.init w sp dp ≠ .ok f) := by
  constructor
  · intro w sp dp s d m h1 h2 h3 h4 h5
    simp [JsonSchemaFactory.init, h1, h2, h3, h4, check_schema_validity, h5]
  · intro w sp dp f h
    unfold JsonSchemaFactory.init at h
    split at h
    · exact Except.noConfusion h
    · split at h
      · split at h
        · exact Except.noConfusion h
        · split at h
          · split at h
            · exact Except.noConfusion h
            · split at h
              · exact Except.noConfusion h
              · exact Except.noConfusion h
          · exact Except.noConfusion h
      · exact Except.noConfusion h

/-- A schema mapping that fails Draft-7 meta-validation (type must be a
string, not a number), in a world whose engine reports exactly that. -/
def w7 : World where
  env := fun _ => none
  fs := fun p =>
    if p = "s7.json" then some (some (.obj [("type", .num 123)]))
    else if p = "d7.json" then some (some (.obj [("a", .num 1)])) else none
  writeOk := fun _ => true
  loadDocx := fun _ => .ok ""
  checkSchemaErr := fun _ => some "123 is not of type string"
  engineValidate := fun _ _ => .ok
  groqSend := fun _ => .ok (.parses .null)
  openaiResp := fun _ _ => .noResponse
  pydanticValidate := fun _ => none

/-- C7 witness: the amended theorem applied to the concrete world w7. -/
theorem C7_witness :
    JsonSchemaFactory.init w7 (some "s7.json") (some "d7.json") =
      .error (.schemaError "123 is not of type string") :=
  C7_meta_invalid_schema_raises_SchemaError.1 w7 (some "s7.json") (some "d7.json")
    (.obj [("type", .num 123)]) (.obj [("a", .num 1)]) "123 is not of type string"
    rfl rfl rfl rfl rfl

/-- C7 counterexample: the claim says a readable meta-invalid schema
always makes construction raise SchemaError, but the known-good-instance
file is read before the Draft-7 check runs, so with that file missing the
construction raises FileNotFoundError instead. -/
theorem C7_counterexample :
    w7.checkSchemaErr (Json.obj [("type", Json.num 123)]) = some "123 is not of type string" ∧
    JsonSchemaFactory.init w7 (some "s7.json") (some "missing.json") =
      .error (.fileNotFoundError "missing.json") ∧
    PyErr.isSchemaError (.fileNotFoundError "missing.json") = false :=
  ⟨rfl, rfl, rfl⟩

/-- The request groq_process_resume_text builds (src/groq_app.py lines
39-62): fixed model, temperature 0, max_tokens the constant 8192; the
resume text is embedded in the system message and the schema text in the
response_format. -/
def groq_request (resume_text resume_schema_str : String) : GroqRequest where
  model := "llama3-groq-8b-8192-tool-use-preview"
  resume_text := resume_text
  schema_str := resume_schema_str
  temperature := 0
  max_tokens := 8192

/-- What src/groq_app.py lines 64-70 do with the response: content that
parses is returned; a KeyError from the access chain is caught, printed,
and None is returned; any other exception - json.JSONDecodeError from
json.loads in particular - is not caught by `except KeyError` and
propagates. -/
def processGroqContent : Except PyErr LlmContent → Except PyErr (Option Json)
  | .error (.keyError _) => .ok none
  | .error e => .error e
  | .ok (.parses j) => .ok (some j)
  | .ok (.unparseable m) => .error (.jsonDecodeError m)

/-- groq_process_resume_text (src/groq_app.py lines 36-70): builds the
request and sends it unconditionally - the function contains no check on
len(resume_text) + len(resume_schema_str) - then handles the response as
processGroqContent describes. -/
def groq_process_resume_text (w : World) (resume_text resume_schema_str : String) :
    Except PyErr (Option Json) :=
  processGroqContent (w.groqSend (groq_request resume_text resume_schema_str))

/-- openai_process_resume_text (src/json_app.py lines 30-111): the
response shape is inspected defensively (each missing-shape case yields
None); content that is None yields None; then `"error" in extracted_data`
runs before the isinstance dispatch, so a string containing that substring
hits extracted_data["error"] and raises TypeError, while a dict containing
that key logs and yields None; a dict without it is returned as-is; a
string without it is json.loads-parsed, a parse failure being caught and
yielding None. -/
def openai_process_resume_text (w : World) (resume_content : String) (resume_schema : Json) :
    Except PyErr (Option Json) :=
  match w.openaiResp resume_content resume_schema with
  | .noResponse => .ok none
  | .badChoices => .ok none
  | .emptyChoices => .ok none
  | .noMessageContent => .ok none
  | .contentNone => .ok none
  | .contentDict kvs =>
    if (lookupKv kvs "error").isSome then .ok none
    else .ok (some (.obj kvs))
  | .contentStr hasErrorSubstr parse =>
    if hasErrorSubstr then .error (.typeError "string indices must be integers")
    else
      match parse with
      | some j => .ok (some j)
      | none => .ok none

/-- C3 (amended): the Groq extraction operation performs no combined-length
pre-flight at all: even when len(resume_text) + len(schema_text) exceeds
8192 the request is issued (the result is exactly the processing of the
provider response) with the fixed max_tokens budget 8192; no InvalidInput
is raised before the call. -/
theorem C3_groq_sends_request_regardless_of_length
    (w : World) (resume_text resume_schema_str : String)
    (h : resume_text.length + resume_schema_str.length > 8192) :
    groq_process_resume_text w resume_text resume_schema_str =
      processGroqContent (w.groqSend (groq_request resume_text resume_schema_str)) ∧
    (groq_request resume_text resume_schema_str).max_tokens = 8192 :=
  ⟨rfl, rfl⟩

/-- A resume text of 8200 characters, enough to exceed the 8192 ceiling on
its own. -/
def bigResumeText : String := (List.replicate 8200 'a').asString

/-- The length of bigResumeText. -/
theorem bigResumeText_length : bigResumeText.length = 8200 := by
  simp only [bigResumeText, List.length_asString, List.length_replicate]

/-- A world whose Groq endpoint answers every request with content parsing
to a one-key object. -/
def w3 : World where
  env := fun _ => none
  fs := fun _ => none
  writeOk := fun _ => true
  loadDocx := fun _ => .ok ""
  checkSchemaErr := fun _ => none
  engineValidate := fun _ _ => .ok
  groqSend := fun _ => .ok (.parses (.obj [("a", .str "b")]))
  openaiResp := fun _ _ => .noResponse
  pydanticValidate := fun _ => none

/-- C3 counterexample: a resume text plus schema text of combined length
8203 > 8192 for which the claim demands an InvalidInput failure before any
network call, yet the Groq operation issues the request and returns the
parsed response object. -/
theorem C3_counterexample :
    bigResumeText.length + ("sch" : String).length > 8192 ∧
    groq_process_resume_text w3 bigResumeText "sch" =
      .ok (some (.obj [("a", .str "b")])) := by
  refine ⟨?_, rfl⟩
  rw [bigResumeText_length]
  decide

/-- C3 witness: the amended theorem applied at the same oversized input. -/
theorem C3_witness :
    groq_process_resume_text w3 bigResumeText "sch" =
      processGroqContent (w3.groqSend (groq_request bigResumeText "sch")) ∧
    (groq_request bigResumeText "sch").max_tokens = 8192 :=
  C3_groq_sends_request_regardless_of_length w3 bigResumeText "sch"
    (by rw [bigResumeText_length]; decide)

/-- C6 (amended): when the message content cannot be parsed as JSON, the
OpenAI variant catches the JSONDecodeError, logs it and returns None -
provided the unparseable string does not contain the substring "error",
which would instead raise TypeError at the earlier membership test; the
Groq variant catches only KeyError, so its json.loads parse failure
propagates to the caller as JSONDecodeError. -/
theorem C6_parse_failure_handling :
    (∀ (w : World) (rc : String) (rs : Json),
      w.openaiResp rc rs = .contentStr false none →
      openai_process_resume_text w rc rs = .ok none) ∧
    (∀ (w : World) (rt ss m : String),
      w.groqSend (groq_request rt ss) = .ok (.unparseable m) →
      groq_process_resume_text w rt ss = .error (.jsonDecodeError m)) := by
  constructor
  · intro w rc rs h
    simp [openai_process_resume_text, h]
  · intro w rt ss m h
    simp [groq_process_resume_text, h, processGroqContent]

/-- A world in which both providers answer with content that is not valid
JSON. -/
def w6 : World where
  env := fun _ => none
  fs := fun _ => none
  writeOk := fun _ => true
  loadDocx := fun _ => .ok ""
  checkSchemaErr := fun _ => none
  engineValidate := fun _ _ => .ok
  groqSend := fun _ => .ok (.unparseable "Expecting value")
  openaiResp := fun _ _ => .contentStr false none
  pydanticValidate := fun _ => none

/-- C6 witness: the amended theorem applied to the concrete world w6. -/
theorem C6_witness :
    openai_process_resume_text w6 "r" (Json.obj []) = .ok none ∧
    groq_process_resume_text w6 "r" "s" = .error (.jsonDecodeError "Expecting value") :=
  ⟨C6_parse_failure_handling.1 w6 "r" (Json.obj []) rfl,
   C6_parse_failure_handling.2 w6 "r" "s" "Expecting value" rfl⟩

/-- A second unparseable-content world for exhibiting the uncaught Groq
parse failure. -/
def w6c : World where
  env := fun _ => none
  fs := fun _ => none
  writeOk := fun _ => true
  loadDocx := fun _ => .ok ""
  checkSchemaErr := fun _ => none
  engineValidate := fun _ _ => .ok
  groqSend := fun _ => .ok (.unparseable "Expecting value: line 1 column 1")
  openaiResp := fun _ _ => .noResponse
  pydanticValidate := fun _ => none

/-- C6 counterexample: the claim says both provider variants catch a JSON
parse failure and return None; in the Groq variant the failure instead
propagates as JSONDecodeError, because the only except clause catches
KeyError. -/
theorem C6_counterexample :
    groq_process_resume_text w6c "resume" "schema" =
      .error (.jsonDecodeError "Expecting value: line 1 column 1") ∧
    groq_process_resume_text w6c "resume" "schema" ≠ .ok none := by
  refine ⟨rfl, ?_⟩
  simp [groq_process_resume_text, processGroqContent, w6c]

/-- write_error_file (src/src/json_schema.py lines 47-72): an undefined
path raises ValueError; a failed write is logged and re-raised; a
successful write returns True. -/
def write_error_file (w : World) (error_file : Option String) (error_string : String) :
    Except PyErr Bool :=
  match error_file with
  | none => .error (.valueError "Error undefined error file path")
  | some p => if w.writeOk p then .ok true else .error (.ioError p)

/-- read_json_schema_file (src/src/json_schema.py lines 74-97): read the
file with read_json_file, then Draft7Validator.check_schema; a SchemaError
propagates. -/
def read_json_schema_file (w : World) (p : Option String) : Except PyErr Json :=
  match read_json_file w.fs p with
  | .error e => .error e
  | .ok j =>
    match w.checkSchemaErr j with
    | none => .ok j
    | some m => .error (.schemaError m)

/-- The shared shape of every except-block in validate_data_object: write
the diagnostic file, then re-raise the caught exception; if the write
itself fails, that failure propagates instead (an exception raised inside
an except block is not caught by the sibling clauses). -/
def writeThenRaise (w : World) (error_file : String) (e : PyErr) : Except PyErr Bool :=
  match write_error_file w (some error_file) e.msg with
  | .error we => .error we
  | .ok _ => .error e

/-- validate_data_object (src/src/json_schema.py lines 147-201): falsy or
non-dict schema or data raise ValueError (diagnostic written to
validate_data_object_error_1.txt); then the Draft-7 engine validates, a
ValidationError going to error_2, a SchemaError to error_3 and any other
exception to error_4, each written then re-raised; success returns True. -/
def validate_data_object (w : World) (json_schema_object data_object : Json) :
    Except PyErr Bool :=
  if json_schema_object.truthy = false then
    writeThenRaise w "./errors/validate_data_object_error_1.txt"
      (.valueError "Error: undefined json schema object")
  else if json_schema_object.isObjB = false then
    writeThenRaise w "./errors/validate_data_object_error_1.txt"
      (.valueError "Error: invalid json schema object type")
  else if data_object.truthy = false then
    writeThenRaise w "./errors/validate_data_object_error_1.txt"
      (.valueError "Error: undefined data object")
  else if data_object.isObjB = false then
    writeThenRaise w "./errors/validate_data_object_error_1.txt"
      (.valueError "Error: invalid data object type")
  else
    match w.engineValidate json_schema_object data_object with
    | .ok => .ok true
    | .vErr m => writeThenRaise w "./errors/validate_data_object_error_2.txt" (.validationError m)
    | .sErr m => writeThenRaise w "./errors/validate_data_object_error_3.txt" (.schemaError m)
    | .other e => writeThenRaise w "./errors/validate_data_object_error_4.txt" e

/-- validate_json_schema_object (src/src/json_schema.py lines 99-145): a
non-raising wrapper around validate_data_object, converting
ValidationError, SchemaError and any other exception to False after
writing a per-category diagnostic file (whose own write failure
propagates). -/
def validate_json_schema_object (w : World) (json_schema_object known_data_object : Json) :
    Except PyErr Bool :=
  match validate_data_object w json_schema_object known_data_object with
  | .ok _ => .ok true
  | .error (.validationError m) =>
    match write_error_file w (some "./errors/validate_json_schema_object_error_1.txt") m with
    | .error we => .error we
    | .ok _ => .ok false
  | .error (.schemaError m) =>
    match write_error_file w (some "./errors/validate_json_schema_object_error_2.txt") m with
    | .error we => .error we
    | .ok _ => .ok false
  | .error e =>
    match write_error_file w (some "./errors/validate_json_schema_object_error_3.txt") e.msg with
    | .error we => .error we
    | .ok _ => .ok false

mutual

/-- json.dumps of a JSON value (the exact indentation of the Python
json.dumps(obj, indent=2) text is immaterial to every claim: the string is
only embedded in LLM prompts and result files). -/
def Json.dumps : Json → String
  | .null => "null"
  | .bool b => cond b "true" "false"
  | .num n => toString n
  | .str s => "\"" ++ s ++ "\""
  | .arr xs => "[" ++ Json.dumpsList xs ++ "]"
  | .obj kvs => "\x7b" ++ Json.dumpsKvs kvs ++ "\x7d"

/-- Serialisation of an array body. -/
def Json.dumpsList : List Json → String
  | [] => ""
  | [x] => Json.dumps x
  | x :: xs => Json.dumps x ++ ", " ++ Json.dumpsList xs

/-- Serialisation of an object body. -/
def Json.dumpsKvs : List (String × Json) → String
  | [] => ""
  | [(k, v)] => "\"" ++ k ++ "\": " ++ Json.dumps v
  | (k, v) :: kvs => "\"" ++ k ++ "\": " ++ Json.dumps v ++ ", " ++ Json.dumpsKvs kvs

end

/-- A schema test definition (the literal dicts in src/groq_app.py):
title, schema path, results path, resume document path (from the
environment, possibly unset) and the optional known-good data-object path
(absent for the six section definitions). -/
structure SchemaDef where
  title : String
  schema_path : String
  results_path : String
  resume_text_path : Option String
  data_object_path : Option String

/-- Python truthiness of an optional environment string: unset and the
empty string are falsy. -/
def optTruthy : Option String → Option String
  | none => none
  | some s => if s = "" then none else some s

/-- test_schema_def (src/groq_app.py lines 72-127): require a truthy
resume path (else log and return None); load the document text (errors
propagate); read and meta-validate the schema file; serialise it; if a
known-good data-object path is present, read it and run
validate_json_schema_object purely as a side-check whose boolean is
ignored but whose exceptions propagate; call the Groq extraction; on None
log and return None, otherwise write the result file (a write failure
propagates) and return the extracted object. -/
def test_schema_def (w : World) (d : SchemaDef) : Except PyErr (Option Json) :=
  match optTruthy d.resume_text_path with
  | none => .ok none
  | some p =>
    match w.loadDocx p with
    | .error e => .error e
    | .ok resume_text =>
      match read_json_schema_file w (some d.schema_path) with
      | .error e => .error e
      | .ok resume_schema_object =>
        let sideCheck : Except PyErr Unit :=
          match optTruthy d.data_object_path with
          | none => .ok ()
          | some dp =>
            match read_json_file w.fs (some dp) with
            | .error e => .error e
            | .ok kdo =>
              match validate_json_schema_object w resume_schema_object kdo with
              | .error e => .error e
              | .ok _ => .ok ()
        match sideCheck with
        | .error e => .error e
        | .ok _ =>
          match groq_process_resume_text w resume_text (Json.dumps resume_schema_object) with
          | .error e => .error e
          | .ok none => .ok none
          | .ok (some extracted_object) =>
            if w.writeOk d.results_path then .ok (some extracted_object)
            else .error (.ioError d.results_path)

/-- test_pydantic_resume (src/groq_app.py lines 129-160): attempt
PydanticResume(**groc_resume_object); a PydanticValidationError is caught
and converted to False, success returns True; unpacking a non-mapping
raises TypeError, which nothing catches. -/
def test_pydantic_resume (w : World) (groc_resume_object : Json) : Except PyErr Bool :=
  if groc_resume_object.isObjB = false then
    .error (.typeError "argument after ** must be a mapping")
  else
    match w.pydanticValidate groc_resume_object with
    | none => .ok true
    | some _ => .ok false

/-- The master schema definition (src/groq_app.py lines 167-173). -/
def resumeMasterSchema_def (w : World) : SchemaDef where
  title := "ResumeSchema"
  schema_path := "./src/resume-schema.json"
  results_path := "./results/resume-schema-results.json"
  resume_text_path := w.env "RESUME_DOCX_PATH"
  data_object_path := w.env "TEST_DATA_OBJECT_PATH"

/-- test_resume_master_schema (src/groq_app.py lines 162-202): run the
master definition; a falsy extraction result (None or an empty mapping)
returns False; otherwise re-read the schema, re-validate the extracted
object (any exception caught, diagnostic written to
schema_validation_error.txt - that write failing propagates), run
test_pydantic_resume (whose internal catch means the outer except
PydanticValidationError never fires; its TypeError on a non-mapping
propagates), and return True regardless of either stage's verdict. -/
def test_resume_master_schema (w : World) : Except PyErr Bool :=
  match test_schema_def w (resumeMasterSchema_def w) with
  | .error e => .error e
  | .ok none => .ok false
  | .ok (some j) =>
    if j.truthy = false then .ok false
    else
      match read_json_schema_file w (some "./src/resume-schema.json") with
      | .error e => .error e
      | .ok resume_schema_object =>
        let stage2 : Except PyErr Unit :=
          match validate_data_object w resume_schema_object j with
          | .ok _ => .ok ()
          | .error e =>
            match write_error_file w (some "./errors/schema_validation_error.txt") e.msg with
            | .error we => .error we
            | .ok _ => .ok ()
        match stage2 with
        | .error e => .error e
        | .ok _ =>
          match test_pydantic_resume w j with
          | .ok _ => .ok true
          | .error (.pydanticValidationError m) =>
            match write_error_file w (some "./errors/pydantic_validation_error.txt") m with
            | .error we => .error we
            | .ok _ => .ok true
          | .error e => .error e

/-- The six section schema definitions (src/groq_app.py lines 207-244),
none carrying a data_object_path key. -/
def section_schema_defs (w : World) : List SchemaDef :=
  [{ title := "ResumeContactInformationSchema",
     schema_path := "./src/resume-contact-information-schema.json",
     results_path := "./results/resume-contact-information-results.json",
     resume_text_path := w.env "RESUME_DOCX_PATH", data_object_path := none },
   { title := "ResumeEmploymentHistorySchema",
     schema_path := "./src/resume_employment_history_schema.json",
     results_path := "./results/resume-employment-history-results.json",
     resume_text_path := w.env "RESUME_DOCX_PATH", data_object_path := none },
   { title := "ResumeEducationHistorySchema",
     schema_path := "./src/resume_education_history_schema.json",
     results_path := "./results/resume-education-history-results.json",
     resume_text_path := w.env "RESUME_DOCX_PATH", data_object_path := none },
   { title := "ResumeSkillsSchema",
     schema_path := "./src/resume_skills_schema.json",
     results_path := "./results/resume-skills-results.json",
     resume_text_path := w.env "RESUME_DOCX_PATH", data_object_path := none },
   { title := "ResumeProjectsSchema",
     schema_path := "./src/resume_projects_schema.json",
     results_path := "./results/resume-projects-results.json",
     resume_text_path := w.env "RESUME_DOCX_PATH", data_object_path := none },
   { title := "ResumePublicationsSchema",
     schema_path := "./src/resume_publications_schema.json",
     results_path := "./results/resume-publications-results.json",
     resume_text_path := w.env "RESUME_DOCX_PATH", data_object_path := none }]

/-- The body of the per-section loop (src/groq_app.py lines 246-259): run
test_schema_def; a falsy extraction appends an extraction-failure string;
otherwise validate_data_object is called with the schema path string
itself as the schema argument (line 254) and its exception, if any, is
written to the per-section error file and appended to the error list. -/
def run_section_body (w : World) (d : SchemaDef) : Except PyErr (List String) :=
  match test_schema_def w d with
  | .error e => .error e
  | .ok none => .ok ["Error: " ++ d.title ++ " extraction failure"]
  | .ok (some extracted_object) =>
    if extracted_object.truthy = false then
      .ok ["Error: " ++ d.title ++ " extraction failure"]
    else
      match validate_data_object w (.str d.schema_path) extracted_object with
      | .ok _ => .ok []
      | .error f =>
        match write_error_file w
            (some ("errors/" ++ d.title ++ "_extracted_object_validation_error.txt")) f.msg with
        | .error we => .error we
        | .ok _ => .ok [f.msg]

/-- The for-loop of test_resume_section_schemas with the unconditional
break at src/groq_app.py line 261: the body runs for the first definition
only and the loop exits, the remaining definitions never being visited.
The second component of the result records the titles the body actually
ran for. -/
def section_loop (w : World) : List SchemaDef → Except PyErr (List String × List String)
  | [] => .ok ([], [])
  | d :: _rest =>
    match run_section_body w d with
    | .error e => .error e
    | .ok errs => .ok (errs, [d.title])

/-- test_resume_section_schemas (src/groq_app.py lines 205-270): run the
loop over the six definitions, then report True exactly when the collected
error list is empty. -/
def test_resume_section_schemas (w : World) : Except PyErr (Bool × List String) :=
  match section_loop w (section_schema_defs w) with
  | .error e => .error e
  | .ok (errs, visited) => .ok (errs.isEmpty, visited)

/-- C5: the claim says the operation executes the per-definition procedure
for each of all six section definitions before aggregating; the loop body
in fact runs for the first definition only (the unconditional break at
line 261), so whenever the operation returns at all it has visited exactly
one of the six definitions. -/
theorem C5_section_loop_visits_only_first (w : World) (b : Bool) (visited : List String) :
    test_resume_section_schemas w = .ok (b, visited) →
    visited = ["ResumeContactInformationSchema"] ∧ visited.length = 1 ∧
    (section_schema_defs w).length = 6 := by
  intro h
  simp only [test_resume_section_schemas, section_schema_defs, section_loop] at h
  rcases hrb : run_section_body w
      { title := "ResumeContactInformationSchema",
        schema_path := "./src/resume-contact-information-schema.json",
        results_path := "./results/resume-contact-information-results.json",
        resume_text_path := w.env "RESUME_DOCX_PATH", data_object_path := none }
    with e | errs
  · rw [hrb] at h
    exact absurd h (by simp)
  · rw [hrb] at h
    simp only [Except.ok.injEq, Prod.mk.injEq] at h
    refine ⟨h.2.symm, ?_, rfl⟩
    rw [← h.2]
    rfl

/-- A world in which the contact-information section extracts
successfully: document set and loadable, section schema file readable and
Draft-7-valid, Groq answering with a parsed object, all writes succeeding. -/
def w5 : World where
  env := fun k => if k = "RESUME_DOCX_PATH" then some "resume.docx" else none
  fs := fun p =>
    if p = "./src/resume-contact-information-schema.json" then
      some (some (.obj [("type", .str "object")]))
    else none
  writeOk := fun _ => true
  loadDocx := fun _ => .ok "John Doe resume text"
  checkSchemaErr := fun _ => none
  engineValidate := fun _ _ => .ok
  groqSend := fun _ => .ok (.parses (.obj [("firstName", .str "John")]))
  openaiResp := fun _ _ => .noResponse
  pydanticValidate := fun _ => none

/-- C5 witness: in the concrete world w5 the run completes, yet the loop
visited only the first of the six definitions. -/
theorem C5_witness :
    test_resume_section_schemas w5 = .ok (false, ["ResumeContactInformationSchema"]) ∧
    (section_schema_defs w5).length = 6 :=
  ⟨rfl, (C5_section_loop_visits_only_first w5 false ["ResumeContactInformationSchema"] rfl).2.2⟩

/-- C10 (amended): whenever the master-schema extraction step returns a
truthy (non-empty) mapping, the re-read of the schema succeeds and the
schema_validation_error diagnostic file is writable, the master test
returns True - irrespective of whether the schema re-validation or the
PydanticResume construction succeeds or fails, both being logged only; and
the embedded test_pydantic_resume converts the pydantic validation error
to a boolean instead of raising. -/
theorem C10_master_schema_test_result
    (w : World) (j s : Json)
    (h1 : test_schema_def w (resumeMasterSchema_def w) = .ok (some j))
    (h2 : j.truthy = true)
    (h3 : j.isObjB = true)
    (h4 : read_json_schema_file w (some "./src/resume-schema.json") = .ok s)
    (h5 : w.writeOk "./errors/schema_validation_error.txt" = true) :
    test_resume_master_schema w = .ok true := by
  unfold test_resume_master_schema
  rw [h1]
  simp only [h2, Bool.true_eq_false, if_false, h4]
  cases hv : validate_data_object w s j with
  | error e =>
    simp only [hv, write_error_file, h5, if_true]
    simp only [test_pydantic_resume, h3, Bool.true_eq_false, if_false]
    cases hp : w.pydanticValidate j <;> simp [hp]
  | ok bv =>
    simp only [hv]
    simp only [test_pydantic_resume, h3, Bool.true_eq_false, if_false]
    cases hp : w.pydanticValidate j <;> simp [hp]

/-- A world in which the Groq extraction of the master schema yields the
empty mapping. -/
def w10 : World where
  env := fun k => if k = "RESUME_DOCX_PATH" then some "resume.docx" else none
  fs := fun p =>
    if p = "./src/resume-schema.json" then some (some (.obj [("type", .str "object")]))
    else none
  writeOk := fun _ => true
  loadDocx := fun _ => .ok "John Doe resume text"
  checkSchemaErr := fun _ => none
  engineValidate := fun _ _ => .ok
  groqSend := fun _ => .ok (.parses (.obj []))
  openaiResp := fun _ _ => .noResponse
  pydanticValidate := fun _ => none

/-- C10 counterexample: the claim says the master test returns True in
every run in which the extraction step returns an object; here the
extraction step returns the (empty) mapping, and the test returns False,
because the guard is the Python truthiness test `if not
groq_extracted_object`, not an is-None test. -/
theorem C10_counterexample :
    test_schema_def w10 (resumeMasterSchema_def w10) = .ok (some (Json.obj [])) ∧
    test_resume_master_schema w10 = .ok false :=
  ⟨rfl, rfl⟩

/-- A world in which extraction yields a non-empty mapping while both the
schema re-validation and the pydantic construction fail. -/
def w10w : World where
  env := fun k => if k = "RESUME_DOCX_PATH" then some "resume.docx" else none
  fs := fun p =>
    if p = "./src/resume-schema.json" then some (some (.obj [("type", .str "object")]))
    else none
  writeOk := fun _ => true
  loadDocx := fun _ => .ok "John Doe resume text"
  checkSchemaErr := fun _ => none
  engineValidate := fun _ _ => .vErr "is a required property"
  groqSend := fun _ => .ok (.parses (.obj [("contactInformation", .str "x")]))
  openaiResp := fun _ _ => .noResponse
  pydanticValidate := fun _ => some "1 validation error for PydanticResume"

/-- C10 witness: the amended theorem applied to a world where both
downstream validations fail, the master test still returning True. -/
theorem C10_witness :
    test_resume_master_schema w10w = .ok true :=
  C10_master_schema_test_result w10w (Json.obj [("contactInformation", .str "x")])
    (Json.obj [("type", .str "object")]) rfl rfl rfl rfl rfl

/-- The seven (strptime pattern, label) pairs of the dict in
Duration.validate_date_format, src/src/pydantic_resume.py lines 24-32, in
insertion order. -/
def date_formats : List (String × String) :=
  [("%Y-%m-%d", "YYYY-MM-DD"),
   ("%Y-%m", "YYYY-MM"),
   ("%Y", "YYYY"),
   ("%b %d, %Y", "MM DD, YYYY"),
   ("%b %Y", "MM YYYY"),
   ("%B %d, %Y", "MMM DD, YYYY"),
   ("%B %Y", "MMM YYYY")]

/-- The strptime patterns, in the order the loop tries them. -/
def date_format_patterns : List String := date_formats.map (fun p => p.1)

/-- The joined label list embedded in the rejection message
(src/src/pydantic_resume.py line 33). -/
def date_format_values : String :=
  String.intercalate ", " (date_formats.map (fun p => p.2))

/-- The for-loop over formats: datetime.strptime is tried on each pattern
in order (the oracle stp says which (value, pattern) pairs strptime
accepts), the loop stopping at the first success. -/
def tryFormats (stp : String → String → Bool) (v : String) : List String → Bool
  | [] => false
  | f :: rest => if stp v f then true else tryFormats stp v rest

/-- The loop accepts exactly when some pattern in the list matches. -/
theorem tryFormats_eq_any (stp : String → String → Bool) (v : String) (l : List String) :
    tryFormats stp v l = l.any (fun f => stp v f) := by
  induction l with
  | nil => rfl
  | cons f rest ih =>
    by_cases h : stp v f = true <;> simp [tryFormats, h, ih]

/-- Duration.validate_date_format (src/src/pydantic_resume.py lines
19-43): None passes through unchanged; otherwise the seven formats are
tried in order, the original string returned on the first strptime
success; with no success a ValueError naming the field and listing the
joined labels is raised. -/
def validate_date_format (stp : String → String → Bool) (field_name : String)
    (value : Option String) : Except String (Option String) :=
  match value with
  | none => .ok none
  | some v =>
    if tryFormats stp v date_format_patterns then .ok (some v)
    else .error (field_name ++ " is not in the list of supported datetime formats "
      ++ date_format_values)

/-- The three patterns of the Duration.validate_date_format variant in
src/pydantic_app.py line 33. -/
def app_date_formats : List String := ["%Y-%m-%d", "%Y-%m", "%Y"]

/-- Duration.validate_date_format of src/pydantic_app.py lines 28-40: the
same loop over only the three ISO-style patterns, the rejection message
naming only those three. -/
def app_validate_date_format (stp : String → String → Bool) (field_name : String)
    (value : Option String) : Except String (Option String) :=
  match value with
  | none => .ok none
  | some v =>
    if tryFormats stp v app_date_formats then .ok (some v)
    else .error (field_name ++
      " must be in the format \x27YYYY-MM-DD\x27, \x27YYYY-MM\x27, or \x27YYYY\x27")

/-- C2 (amended): for the canonical Duration of the Resume Record Model
(src/src/pydantic_resume.py) the claim holds exactly: None is accepted
unchanged; a string is accepted, and returned unchanged, precisely when
strptime matches it against at least one of the seven patterns tried in
the fixed order; otherwise a ValueError naming the field and listing every
accepted format label is raised.  The historical Duration variant in
src/pydantic_app.py instead tries only the first three formats, its error
naming only those. -/
theorem C2_duration_date_validation (stp : String → String → Bool) (field_name : String) :
    validate_date_format stp field_name none = .ok none ∧
    (∀ s, date_format_patterns.any (fun f => stp s f) = true →
      validate_date_format stp field_name (some s) = .ok (some s)) ∧
    (∀ s, date_format_patterns.any (fun f => stp s f) = false →
      validate_date_format stp field_name (some s) =
        .error (field_name ++ " is not in the list of supported datetime formats "
          ++ date_format_values)) ∧
    date_format_values =
      "YYYY-MM-DD, YYYY-MM, YYYY, MM DD, YYYY, MM YYYY, MMM DD, YYYY, MMM YYYY" ∧
    app_validate_date_format stp field_name none = .ok none ∧
    (∀ s, app_date_formats.any (fun f => stp s f) = true →
      app_validate_date_format stp field_name (some s) = .ok (some s)) ∧
    (∀ s, app_date_formats.any (fun f => stp s f) = false →
      app_validate_date_format stp field_name (some s) =
        .error (field_name ++
          " must be in the format \x27YYYY-MM-DD\x27, \x27YYYY-MM\x27, or \x27YYYY\x27")) := by
  refine ⟨rfl, ?_, ?_, rfl, rfl, ?_, ?_⟩
  · intro s h
    simp [validate_date_format, tryFormats_eq_any, h]
  · intro s h
    simp [validate_date_format, tryFormats_eq_any, h]
  · intro s h
    simp [app_validate_date_format, tryFormats_eq_any, h]
  · intro s h
    simp [app_validate_date_format, tryFormats_eq_any, h]

/-- A strptime oracle accepting exactly the pair ("May 2020", "%b %Y"),
as CPython strptime does. -/
def stpc : String → String → Bool := fun v f => v == "May 2020" && f == "%b %Y"

/-- C2 counterexample: the claim quantifies over every Duration date field
and says a string is accepted iff it matches one of the seven formats;
"May 2020" matches the fourth-listed pattern, yet the Duration variant of
src/pydantic_app.py (cited by the claim) rejects it, because that
validator tries only the first three formats. -/
theorem C2_counterexample :
    date_format_patterns.any (fun f => stpc "May 2020" f) = true ∧
    app_validate_date_format stpc "start" (some "May 2020") =
      .error ("start must be in the format \x27YYYY-MM-DD\x27, \x27YYYY-MM\x27, or \x27YYYY\x27") :=
  ⟨rfl, rfl⟩

/-- C2 witness: the amended theorem applied at the concrete oracle,
accepting "May 2020" through the canonical seven-format validator. -/
theorem C2_witness :
    validate_date_format stpc "start" (some "May 2020") = .ok (some "May 2020") :=
  (C2_duration_date_validation stpc "start").2.1 "May 2020" rfl

/-- A pydantic str field value: only a JSON string validates (pydantic v2
does not coerce other JSON types to str). -/
def asStr (name : String) : Json → Except String String
  | .str s => .ok s
  | _ => .error (name ++ ": Input should be a valid string")

/-- A required field of any type: absence is a missing-field error. -/
def reqField (kvs : List (String × Json)) (name : String) : Except String Json :=
  match lookupKv kvs name with
  | some v => .ok v
  | none => .error (name ++ ": Field required")

/-- A required str field. -/
def reqStrField (kvs : List (String × Json)) (name : String) : Except String String :=
  match lookupKv kvs name with
  | none => .error (name ++ ": Field required")
  | some v => asStr name v

/-- An Optional[str] field defaulting to None: absent or null is None. -/
def optStrField (kvs : List (String × Json)) (name : String) :
    Except String (Option String) :=
  match lookupKv kvs name with
  | none => .ok none
  | some .null => .ok none
  | some (.str s) => .ok (some s)
  | some _ => .error (name ++ ": Input should be a valid string")

/-- A required List[str] field. -/
def reqStrListField (kvs : List (String × Json)) (name : String) :
    Except String (List String) :=
  match lookupKv kvs name with
  | none => .error (name ++ ": Field required")
  | some (.arr xs) => xs.mapM (asStr name)
  | some _ => .error (name ++ ": Input should be a valid list")

/-- An Optional[List[str]] field defaulting to None. -/
def optStrListField (kvs : List (String × Json)) (name : String) :
    Except String (Option (List String)) :=
  match lookupKv kvs name with
  | none => .ok none
  | some .null => .ok none
  | some (.arr xs) => (xs.mapM (asStr name)).map some
  | some _ => .error (name ++ ": Input should be a valid list")

/-- The Duration model of src/pydantic_app.py lines 12-40; the second
field is named end in the source, a Lean keyword. -/
structure DurationR where
  start : Option String
  stop : Option String

/-- Validation of a Duration from JSON: both optional string fields run
through the three-format date validator of src/pydantic_app.py. -/
def Duration_validate (stp : String → String → Bool) (j : Json) :
    Except String DurationR :=
  match j with
  | .obj kvs => do
    let s ← optStrField kvs "start"
    let s2 ← app_validate_date_format stp "start" s
    let e ← optStrField kvs "end"
    let e2 ← app_validate_date_format stp "end" e
    .ok ⟨s2, e2⟩
  | _ => .error "duration: Input should be a valid dictionary"

/-- An Optional[Duration] field defaulting to None. -/
def optDurationField (stp : String → String → Bool) (kvs : List (String × Json))
    (name : String) : Except String (Option DurationR) :=
  match lookupKv kvs name with
  | none => .ok none
  | some .null => .ok none
  | some j => (Duration_validate stp j).map some

/-- ContactInformation (src/pydantic_app.py lines 42-56): firstName,
lastName and email required strings, the remaining six optional. -/
structure ContactInformationR where
  firstName : String
  lastName : String
  email : String
  phone : Option String
  address : Option String
  city : Option String
  state : Option String
  zipcode : Option String
  country : Option String

/-- Validation of a ContactInformation candidate; unknown keys are
ignored, as pydantic does by default. -/
def ContactInformation_validate (j : Json) : Except String ContactInformationR :=
  match j with
  | .obj kvs => do
    let firstName ← reqStrField kvs "firstName"
    let lastName ← reqStrField kvs "lastName"
    let email ← reqStrField kvs "email"
    let phone ← optStrField kvs "phone"
    let address ← optStrField kvs "address"
    let city ← optStrField kvs "city"
    let state ← optStrField kvs "state"
    let zipcode ← optStrField kvs "zipcode"
    let country ← optStrField kvs "country"
    .ok ⟨firstName, lastName, email, phone, address, city, state, zipcode, country⟩
  | _ => .error "contactInformation: Input should be a valid dictionary"

/-- WorkHistoryItem (src/pydantic_app.py lines 58-68). -/
structure WorkHistoryItemR where
  workPositionOrTitle : String
  workForCompanyName : String
  workLocationOrRemote : String
  workDuration : Option DurationR
  workResponsibilitiesAccomplishments : List String

/-- Validation of a WorkHistoryItem candidate. -/
def WorkHistoryItem_validate (stp : String → String → Bool) (j : Json) :
    Except String WorkHistoryItemR :=
  match j with
  | .obj kvs => do
    let t ← reqStrField kvs "workPositionOrTitle"
    let c ← reqStrField kvs "workForCompanyName"
    let l ← reqStrField kvs "workLocationOrRemote"
    let d ← optDurationField stp kvs "workDuration"
    let rs ← reqStrListField kvs "workResponsibilitiesAccomplishments"
    .ok ⟨t, c, l, d, rs⟩
  | _ => .error "workHistory item: Input should be a valid dictionary"

/-- EducationHistoryItem (src/pydantic_app.py lines 70-82). -/
structure EducationHistoryItemR where
  institution : String
  degree : String
  majors : Option String
  minors : Option String
  gradePointAverage : Option String
  duration : Option DurationR

/-- Validation of an EducationHistoryItem candidate. -/
def EducationHistoryItem_validate (stp : String → String → Bool) (j : Json) :
    Except String EducationHistoryItemR :=
  match j with
  | .obj kvs => do
    let i ← reqStrField kvs "institution"
    let dg ← reqStrField kvs "degree"
    let mj ← optStrField kvs "majors"
    let mn ← optStrField kvs "minors"
    let g ← optStrField kvs "gradePointAverage"
    let d ← optDurationField stp kvs "duration"
    .ok ⟨i, dg, mj, mn, g, d⟩
  | _ => .error "educationHistory item: Input should be a valid dictionary"

/-- A List[X] field value: a JSON array whose items each validate. -/
def listOf (f : Json → Except String α) (name : String) : Json → Except String (List α)
  | .arr xs => xs.mapM f
  | _ => .error (name ++ ": Input should be a valid list")

/-- The Resume root model (src/pydantic_app.py lines 84-98):
contactInformation, workHistory and educationHistory required - the two
histories plain List fields with no minimum-length constraint - and five
optional fields. -/
structure ResumeR where
  contactInformation : ContactInformationR
  workHistory : List WorkHistoryItemR
  educationHistory : List EducationHistoryItemR
  skills : Option String
  certifications : Option String
  publications : Option String
  patents : Option String
  websites : Option (List String)

/-- Construction of a Resume from the key-value list of a candidate
mapping, field declarations exactly as in src/pydantic_app.py lines
84-98. -/
def Resume_validate_obj (stp : String → String → Bool) (kvs : List (String × Json)) :
    Except String ResumeR := do
    let ciJ ← reqField kvs "contactInformation"
    let ci ← ContactInformation_validate ciJ
    let whJ ← reqField kvs "workHistory"
    let wh ← listOf (WorkHistoryItem_validate stp) "workHistory" whJ
    let ehJ ← reqField kvs "educationHistory"
    let eh ← listOf (EducationHistoryItem_validate stp) "educationHistory" ehJ
    let skills ← optStrField kvs "skills"
    let certifications ← optStrField kvs "certifications"
    let publications ← optStrField kvs "publications"
    let patents ← optStrField kvs "patents"
    let websites ← optStrListField kvs "websites"
    .ok ⟨ci, wh, eh, skills, certifications, publications, patents, websites⟩

/-- Construction of a Resume from a candidate JSON value: unpacking a
non-mapping fails, a mapping validates field by field. -/
def Resume_validate (stp : String → String → Bool) : Json → Except String ResumeR
  | .obj kvs => Resume_validate_obj stp kvs
  | _ => .error "Resume: Input should be a valid dictionary"

/-- Bind of Except on a success. -/
theorem exbind_ok {α β : Type} (a : α) (k : α → Except String β) :
    (Except.ok a >>= k) = k a := rfl

/-- Bind of Except on an error. -/
theorem exbind_err {α β : Type} (m : String) (k : α → Except String β) :
    ((Except.error m : Except String α) >>= k) = Except.error m := rfl

/-- C8 (amended): workHistory and educationHistory are required - any
successfully constructed Resume had both keys present in the candidate -
but non-emptiness is not enforced: the fields are plain List types with no
minimum length, so an empty list for either is accepted (the
counterexample exhibits such a construction succeeding). -/
theorem C8_resume_histories_required_not_nonempty (stp : String → String → Bool)
    (kvs : List (String × Json)) (r : ResumeR)
    (h : Resume_validate stp (Json.obj kvs) = .ok r) :
    (lookupKv kvs "workHistory").isSome = true ∧
    (lookupKv kvs "educationHistory").isSome = true := by
  have h2 : Resume_validate_obj stp kvs = .ok r := h
  clear h
  unfold Resume_validate_obj at h2
  cases hci : reqField kvs "contactInformation" with
  | error m => rw [hci, exbind_err] at h2; simp at h2
  | ok ciJ =>
    rw [hci, exbind_ok] at h2
    cases hciv : ContactInformation_validate ciJ with
    | error m => rw [hciv, exbind_err] at h2; simp at h2
    | ok ci =>
      rw [hciv, exbind_ok] at h2
      cases hwhJ : reqField kvs "workHistory" with
      | error m => rw [hwhJ, exbind_err] at h2; simp at h2
      | ok whJ =>
        rw [hwhJ, exbind_ok] at h2
        have hw : (lookupKv kvs "workHistory").isSome = true := by
          revert hwhJ
          unfold reqField
          cases lookupKv kvs "workHistory" <;> simp
        cases hwh : listOf (WorkHistoryItem_validate stp) "workHistory" whJ with
        | error m => rw [hwh, exbind_err] at h2; simp at h2
        | ok wh =>
          rw [hwh, exbind_ok] at h2
          cases hehJ : reqField kvs "educationHistory" with
          | error m => rw [hehJ, exbind_err] at h2; simp at h2
          | ok ehJ =>
            have he : (lookupKv kvs "educationHistory").isSome = true := by
              revert hehJ
              unfold reqField
              cases lookupKv kvs "educationHistory" <;> simp
            exact ⟨hw, he⟩

/-- A candidate mapping with valid contact information and empty work and
education histories. -/
def c8kvs : List (String × Json) :=
  [("contactInformation",
     .obj [("firstName", .str "Ada"), ("lastName", .str "Lovelace"),
           ("email", .str "ada@example.com")]),
   ("workHistory", .arr []),
   ("educationHistory", .arr [])]

/-- A strptime oracle rejecting everything (no date strings appear in
c8kvs, so it is never consulted). -/
def stpNone : String → String → Bool := fun _ _ => false

/-- C8 counterexample: the claim says Resume construction fails whenever
workHistory or educationHistory is empty; here both are the empty list,
and the construction succeeds. -/
theorem C8_counterexample :
    lookupKv c8kvs "workHistory" = some (Json.arr []) ∧
    lookupKv c8kvs "educationHistory" = some (Json.arr []) ∧
    Resume_validate stpNone (Json.obj c8kvs) =
      .ok ⟨⟨"Ada", "Lovelace", "ada@example.com", none, none, none, none, none, none⟩,
           [], [], none, none, none, none, none⟩ :=
  ⟨rfl, rfl, rfl⟩

/-- C8 witness: the amended theorem applied to the concrete succeeding
construction. -/
theorem C8_witness :
    (lookupKv c8kvs "workHistory").isSome = true ∧
    (lookupKv c8kvs "educationHistory").isSome = true :=
  C8_resume_histories_required_not_nonempty stpNone c8kvs
    ⟨⟨"Ada", "Lovelace", "ada@example.com", none, none, none, none, none, none⟩,
     [], [], none, none, none, none, none⟩ rfl
